import Mathlib

/-!
Verification of the session-management core of the bioclin-mcp repository.

This file gives a shallow embedding of the credential store, the browser
login flows, the CLI login flow, the CSRF header construction and the
logout tool, translated from:

  - bioclin_auth.py        (get_session, login_cli, login_browser_auto)
  - auto_browser_auth.py   (auto_browser_login)
  - src/bioclin_fastmcp.py (load_stored_session, bioclin_request headers,
                            bioclin_logout)
  - bioclin_mcp_server.py  (BioclinClient._get_headers)

Python dicts of strings are modelled as association lists with dict-style
insertion (replace the value in place when the key exists, append
otherwise); timestamps are integers (seconds), so datetime comparison is
integer comparison; `json.dumps`/`json.loads` are treated as an exact
round trip (they are the standard library, an external collaborator);
exceptions raised inside a `try` block are modelled with `Except` and the
enclosing `except` handler with a `match` on that value.
-/

/-- Python dict lookup `d.get(k)` on an association list: the first binding
of the key, if any (keys are unique after `dictInsert`/`dictOfList`). -/
def pyGet {α : Type} : List (String × α) → String → Option α
  | [], _ => none
  | p :: rest, k => if p.1 = k then some p.2 else pyGet rest k

/-- Python dict assignment `d[k] = v`: replaces the value in place when the
key is already present, appends the binding otherwise. -/
def dictInsert {α : Type} (d : List (String × α)) (k : String) (v : α) :
    List (String × α) :=
  if d.any (fun p => decide (p.1 = k)) then
    d.map (fun p => if p.1 = k then (k, v) else p)
  else d ++ [(k, v)]

/-- Python `dict(pairs)`: builds a dict from a pair list, later occurrences
of a key overwriting the value of earlier ones. -/
def dictOfList {α : Type} (l : List (String × α)) : List (String × α) :=
  l.foldl (fun d p => dictInsert d p.1 p.2) []

/-- Substring test on character lists, used to model Python `needle in hay`. -/
def listContainsInfix (needle : List Char) : List Char → Bool
  | [] => needle.isEmpty
  | c :: rest =>
    if needle.isPrefixOf (c :: rest) then true else listContainsInfix needle rest

/-- Python substring containment `needle in hay` for strings. -/
def strContains (hay needle : String) : Bool :=
  listContainsInfix needle.toList hay.toList

/-- State of the browser page observed at one poll iteration: `page.url`
and the string returned by `page.evaluate(() => document.cookie)`. -/
structure PageState where
  url : String
  cookieStr : String
deriving DecidableEq, Repr

/-- Success signal of the poll loop in bioclin_auth.login_browser_auto:
`'/login' not in current_url or 'access_token' in cookies_str`. -/
def bioclinSignal (st : PageState) : Bool :=
  !(strContains st.url "/login") || strContains st.cookieStr "access_token"

/-- Success signal of the poll loop in auto_browser_auth.auto_browser_login:
`'/login' not in current_url or 'access_token' in cookies_str or 'session'
in cookies_str`. -/
def autoSignal (st : PageState) : Bool :=
  !(strContains st.url "/login") || strContains st.cookieStr "access_token"
    || strContains st.cookieStr "session"

/-- The `for i in range(fuel)` poll loop starting at index `start`: returns
the first index at which the signal holds, `none` when the loop exhausts
its iterations (the `for ... else` timeout branch). -/
def findFirst (signal : PageState → Bool) (trace : Nat → PageState) :
    Nat → Nat → Option Nat
  | _, 0 => none
  | start, fuel + 1 =>
    if signal (trace start) then some start
    else findFirst signal trace (start + 1) fuel

/-- The 150-iteration poll loop (`for i in range(150)`, 2 seconds apart):
index of the first poll whose page state satisfies the signal. -/
def detectIndex (signal : PageState → Bool) (trace : Nat → PageState) :
    Option Nat :=
  findFirst signal trace 0 150

/-- The `user` object stored in the session file: each field is
`user_info.get(...)`, which yields `none` when the key is absent (for
example when the verification response body was an error object). -/
structure UserInfo where
  email : Option String
  username : Option String
  id : Option String
deriving DecidableEq, Repr

/-- A parsed session-file JSON object (`session_data` in the source).
`expires_at = none` models a dict in which the `expires_at` key is missing
or its value is not a parsable timestamp, so that
`datetime.fromisoformat(session_data["expires_at"])` raises. -/
structure SessionData where
  cookies : List (String × String)
  csrf_token : Option String
  user : UserInfo
  created_at : Option Int
  expires_at : Option Int
deriving DecidableEq, Repr

/-- Byte content of the session file: either bytes that `json.loads`
rejects, or bytes it parses into a session object. -/
inductive FileContents
  | garbage (tag : Nat)
  | json (d : SessionData)
deriving DecidableEq, Repr

/-- The session file location: missing, or present with some contents. -/
inductive FileState
  | missing
  | present (c : FileContents)
deriving DecidableEq, Repr

/-- Exceptions that the load path can raise inside its `try` block. -/
inductive PyErr
  | valueError (tag : Nat)
  | keyError
deriving DecidableEq, Repr

/-- Python `json.loads` on the file contents: raises `ValueError` on
non-JSON bytes, returns the parsed object otherwise. -/
def jsonLoads : FileContents → Except PyErr SessionData
  | .garbage t => .error (.valueError t)
  | .json d => .ok d

/-- Body of the `try` block of bioclin_auth.get_session: parse the file,
read `session_data["expires_at"]` (KeyError when absent), and treat a
strictly past expiry as absent (`if datetime.now() > expires_at`). -/
def get_session_body (now : Int) (c : FileContents) :
    Except PyErr (Option SessionData) :=
  match jsonLoads c with
  | .error e => .error e
  | .ok d =>
    match d.expires_at with
    | none => .error .keyError
    | some t => if now > t then .ok none else .ok (some d)

/-- bioclin_auth.get_session: `None` when the file is missing, otherwise
run the `try` block, every exception being caught and turned into `None`. -/
def get_session (now : Int) (fs : FileState) : Option SessionData :=
  match fs with
  | .missing => none
  | .present c =>
    match get_session_body now c with
    | .ok v => v
    | .error _ => none

/-- bioclin_fastmcp.load_stored_session: `None` when the file is missing,
`json.loads` inside a `try` with every exception turned into `None`; the
parsed object is returned as is, with no expiry or key validation. -/
def load_stored_session (fs : FileState) : Option SessionData :=
  match fs with
  | .missing => none
  | .present c =>
    match jsonLoads c with
    | .ok d => some d
    | .error _ => none

/-- The save performed at the end of both login flows:
`SESSION_FILE.write_text(json.dumps(session_data))`, with the JSON round
trip of the standard library taken as exact. -/
def save_session (d : SessionData) : FileState :=
  .present (.json d)

/-- The `timedelta(days=7)` expiry policy, in seconds. -/
def sevenDays : Int := 7 * 24 * 60 * 60

/-- Body of an HTTP response as consumed by the login flows: `.jsonBody u`
is a body that `response.json()` parses, with `u` the values that
`user_info.get("email"/"username"/"id")` extract from it; `.notJson`
makes `response.json()` raise. -/
inductive RespBody
  | jsonBody (u : UserInfo)
  | notJson (tag : Nat)
deriving DecidableEq, Repr

/-- Outcome of one outbound HTTP call: a transport-level failure (the
httpx request itself raises, for example connection refused), or a
response with a status code, response cookies and a body. -/
inductive HttpResult
  | transportError (tag : Nat)
  | response (status : Nat) (cookies : List (String × String)) (body : RespBody)
deriving DecidableEq, Repr

/-- httpx success test: `raise_for_status` raises for any non-2xx code. -/
def is2xx (s : Nat) : Bool := decide (200 ≤ s) && decide (s < 300)

/-- Which `except` handler of login_cli caught the failure:
`except httpx.HTTPStatusError` (carrying the status code) versus the
catch-all `except Exception`. -/
inductive LoginFailure
  | httpStatus (code : Nat)
  | generic (tag : Nat)
deriving DecidableEq, Repr

/-- Observable outcome of one login_cli run: what was written to the
session file (if anything), the returned boolean, and which handler
caught the failure when one did. -/
structure CliResult where
  saved : Option SessionData
  success : Bool
  failureKind : Option LoginFailure
deriving DecidableEq, Repr

/-- bioclin_auth.login_cli after the credentials were read: POST the login
form (`raise_for_status`), take `dict(response.cookies)` and
`response.cookies.get("csrf_token")`, GET `/user/me` (note: its status is
never checked), parse its body with `.get` extraction, and write the
session file.  `httpx.HTTPStatusError` is caught by the first handler,
every other exception by the catch-all. -/
def login_cli (now : Int) (loginResp userResp : HttpResult) : CliResult :=
  match loginResp with
  | .transportError t => { saved := none, success := false, failureKind := some (.generic t) }
  | .response s ck _ =>
    if is2xx s then
      match userResp with
      | .transportError t => { saved := none, success := false, failureKind := some (.generic t) }
      | .response _ _ body =>
        match body with
        | .notJson t => { saved := none, success := false, failureKind := some (.generic t) }
        | .jsonBody u =>
          { saved := some
              { cookies := dictOfList ck
                csrf_token := pyGet (dictOfList ck) "csrf_token"
                user := u
                created_at := some now
                expires_at := some (now + sevenDays) }
            success := true
            failureKind := none }
    else { saved := none, success := false, failureKind := some (.httpStatus s) }

/-- The cookie names retained by the browser flows:
`required_cookies = ['access_token', 'csrf_token', 'refresh_token']`. -/
def requiredCookies : List String := ["access_token", "csrf_token", "refresh_token"]

/-- The block shared verbatim by both browser flows after login is
detected: build `cookies_dict` from `context.cookies()`, extract the
csrf token, filter to `required_cookies`, fail when the filtered set is
empty, verify via GET `/identity/user_me` with `raise_for_status`, and
on success build the session record that is written to disk.  Returns
the record written, or `none` when no record is persisted. -/
def browserSaveRecord (now : Int) (contextCookies : List (String × String))
    (userResp : HttpResult) : Option SessionData :=
  if ((dictOfList contextCookies).filter
      (fun p => decide (p.1 ∈ requiredCookies))).isEmpty then none
  else
    match userResp with
    | .transportError _ => none
    | .response s _ body =>
      if is2xx s then
        match body with
        | .jsonBody u =>
          some
            { cookies := (dictOfList contextCookies).filter
                (fun p => decide (p.1 ∈ requiredCookies))
              csrf_token := pyGet (dictOfList contextCookies) "csrf_token"
              user := u
              created_at := some now
              expires_at := some (now + sevenDays) }
        | .notJson _ => none
      else none

/-- Observable outcome of one browser-flow run: returned boolean, the
record written to the session file (if any), whether the browser was
closed, and which final URL / cookie snapshot the timeout branch printed
for diagnostics (`none` when that branch prints none). -/
structure FlowResult where
  success : Bool
  saved : Option SessionData
  browserClosed : Bool
  finalUrlReported : Option String
  finalCookiesReported : Option String
deriving DecidableEq, Repr

/-- bioclin_auth.login_browser_auto: poll with `bioclinSignal` for 150
iterations; on timeout print only a generic message, close the browser
and return False; on detection run the shared capture/verify/save block.
All failures return False with the browser closed. -/
def login_browser_auto (now : Int) (trace : Nat → PageState)
    (contextCookies : List (String × String)) (userResp : HttpResult) :
    FlowResult :=
  match detectIndex bioclinSignal trace with
  | none =>
    { success := false, saved := none, browserClosed := true
      finalUrlReported := none, finalCookiesReported := none }
  | some _ =>
    match browserSaveRecord now contextCookies userResp with
    | some r =>
      { success := true, saved := some r, browserClosed := true
        finalUrlReported := none, finalCookiesReported := none }
    | none =>
      { success := false, saved := none, browserClosed := true
        finalUrlReported := none, finalCookiesReported := none }

/-- auto_browser_auth.auto_browser_login: same flow but the poll signal
also accepts a cookie string containing "session", and the timeout branch
prints the page URL and cookie string read after the loop (modelled as
the trace at index 150) before closing the browser and returning False. -/
def auto_browser_login (now : Int) (trace : Nat → PageState)
    (contextCookies : List (String × String)) (userResp : HttpResult) :
    FlowResult :=
  match detectIndex autoSignal trace with
  | none =>
    { success := false, saved := none, browserClosed := true
      finalUrlReported := some (trace 150).url
      finalCookiesReported := some (trace 150).cookieStr }
  | some _ =>
    match browserSaveRecord now contextCookies userResp with
    | some r =>
      { success := true, saved := some r, browserClosed := true
        finalUrlReported := none, finalCookiesReported := none }
    | none =>
      { success := false, saved := none, browserClosed := true
        finalUrlReported := none, finalCookiesReported := none }

/-- Header construction of bioclin_fastmcp.bioclin_request: load the
stored session (any parsed dict counting as truthy), take its
`csrf_token`, and set `headers["X-CSRF-Token"]` only when the token is
truthy (Python treats `None` and the empty string as falsy). -/
def bioclin_request_headers (fs : FileState)
    (headers0 : List (String × String)) : List (String × String) :=
  match load_stored_session fs with
  | some d =>
    match d.csrf_token with
    | some t => if t = "" then headers0 else dictInsert headers0 "X-CSRF-Token" t
    | none => headers0
  | none => headers0

/-- bioclin_mcp_server.BioclinClient._get_headers: start from the
Content-Type header and add `X-CSRF-Token` when `self.csrf_token` is
truthy. -/
def BioclinClient_get_headers (csrfToken : Option String) :
    List (String × String) :=
  match csrfToken with
  | some t =>
    if t = "" then [("Content-Type", "application/json")]
    else dictInsert [("Content-Type", "application/json")] "X-CSRF-Token" t
  | none => [("Content-Type", "application/json")]

/-- Values of the result dict returned by the logout tool. -/
inductive PyVal
  | str (s : String)
  | bool (b : Bool)
deriving DecidableEq, Repr

/-- Exceptions that `bioclin_request` can raise: `httpx.HTTPStatusError`
from `raise_for_status`, or a transport-level httpx failure. -/
inductive ReqError
  | httpStatus (code : Nat)
  | transport (tag : Nat)
deriving DecidableEq, Repr

/-- Stand-in for Python `str(e)` on a caught request exception. -/
def reqErrorMessage : ReqError → String
  | .httpStatus c => "HTTP status " ++ toString c
  | .transport t => "transport failure " ++ toString t

/-- bioclin_fastmcp.bioclin_logout: await the remote POST /identity/logout
(its outcome is the `remote` argument), catching any exception and
replacing the result with an error dict; then unlink the session file
when it exists and record `session_file_deleted` accordingly.  Returns
the result dict and the file-exists state afterwards. -/
def bioclin_logout (remote : Except ReqError (List (String × PyVal)))
    (fileExists : Bool) : List (String × PyVal) × Bool :=
  match remote with
  | .ok d =>
    if fileExists then (dictInsert d "session_file_deleted" (.bool true), false)
    else (dictInsert d "session_file_deleted" (.bool false), false)
  | .error e =>
    if fileExists then
      (dictInsert [("status", .str "error"), ("message", .str (reqErrorMessage e))]
        "session_file_deleted" (.bool true), false)
    else
      (dictInsert [("status", .str "error"), ("message", .str (reqErrorMessage e))]
        "session_file_deleted" (.bool false), false)

/-- Expired session record used for claim C1: expiry at instant 0. -/
def d1 : SessionData :=
  { cookies := [("access_token", "tok")], csrf_token := some "c"
    user := { email := some "e", username := some "u", id := some "i" }
    created_at := some (-604800), expires_at := some 0 }

/-- Well-formed record used for the claim C4 witness. -/
def d4 : SessionData :=
  { cookies := [("access_token", "t")], csrf_token := some "c"
    user := { email := some "a", username := some "b", id := some "i" }
    created_at := some 0, expires_at := some 10 }

/-- Parsed JSON object missing the `expires_at` key, for claim C5. -/
def d5 : SessionData :=
  { cookies := [("access_token", "tok")], csrf_token := none
    user := { email := none, username := none, id := none }
    created_at := some 0, expires_at := none }

/-- Stored record whose csrf token is the empty string, for claim C6. -/
def d6 : SessionData :=
  { cookies := [("access_token", "tok"), ("csrf_token", "")]
    csrf_token := some ""
    user := { email := none, username := none, id := none }
    created_at := some 0, expires_at := some 604800 }

/-- Stored record with a nonempty csrf token, for the claim C6 witness. -/
def d6W : SessionData :=
  { cookies := [("access_token", "a"), ("csrf_token", "tok")]
    csrf_token := some "tok"
    user := { email := none, username := none, id := none }
    created_at := some 0, expires_at := some 604800 }

/-- Record with expiry at instant 5, for the claim C10 witness. -/
def d10 : SessionData :=
  { cookies := [("access_token", "x")], csrf_token := none
    user := { email := none, username := none, id := none }
    created_at := some 0, expires_at := some 5 }

/-- Page trace for claim C7: the URL stays on the login page and the
cookie string contains "session" but never "access_token". -/
def trace7 : Nat → PageState := fun _ =>
  { url := "https://bioclin.vindhyadatascience.com/login"
    cookieStr := "session=abc" }

/-- Page trace for the claim C7 witness: the URL leaves /login at poll 3,
an access-token cookie appears only at poll 5. -/
def traceW : Nat → PageState := fun i =>
  if i < 3 then
    { url := "https://bioclin.vindhyadatascience.com/login", cookieStr := "" }
  else if i < 5 then
    { url := "https://bioclin.vindhyadatascience.com/dashboard", cookieStr := "" }
  else
    { url := "https://bioclin.vindhyadatascience.com/dashboard"
      cookieStr := "access_token=tok" }

/-- Page trace for claim C8: the page never leaves /login and never gains
a recognizable cookie, so neither poll loop ever detects login. -/
def traceC : Nat → PageState := fun _ =>
  { url := "https://bioclin.vindhyadatascience.com/login", cookieStr := "" }

/-- Page trace for the claim C3 witness: login detected immediately. -/
def traceD : Nat → PageState := fun _ =>
  { url := "https://bioclin.vindhyadatascience.com/home"
    cookieStr := "access_token=a" }

/-- The spec's example captured cookie set, including an unrelated cookie. -/
def ccExample : List (String × String) :=
  [("access_token", "a"), ("csrf_token", "b"), ("unrelated", "c"), ("refresh_token", "d")]

/-- Successful verification response for the claim C3 witness. -/
def urOk : HttpResult :=
  .response 200 []
    (.jsonBody { email := some "user@example.com", username := some "user", id := some "42" })

/-- The record the browser flow persists from `ccExample`: exactly the
three allowed cookies, the unrelated one discarded. -/
def recExample : SessionData :=
  { cookies := [("access_token", "a"), ("csrf_token", "b"), ("refresh_token", "d")]
    csrf_token := some "b"
    user := { email := some "user@example.com", username := some "user", id := some "42" }
    created_at := some 0, expires_at := some 604800 }

/-- Successful login POST response for claim C2. -/
def c2LoginResp : HttpResult :=
  .response 200 [("access_token", "tok"), ("csrf_token", "c"), ("refresh_token", "r")]
    (.jsonBody { email := none, username := none, id := none })

/-- Verification response for claim C2: a 401 whose JSON body is an error
object carrying none of the user fields. -/
def c2UserResp : HttpResult :=
  .response 401 [] (.jsonBody { email := none, username := none, id := none })

/-- Login POST response for claim C3 carrying an unrelated cookie. -/
def c3LoginResp : HttpResult :=
  .response 200
    [("access_token", "a"), ("csrf_token", "b"), ("unrelated", "c"), ("refresh_token", "d")]
    (.jsonBody { email := none, username := none, id := none })

/-- Successful verification response for claim C3. -/
def c3UserResp : HttpResult :=
  .response 200 [] (.jsonBody { email := some "e", username := some "u", id := some "i" })

/-- Dict lookup after dict assignment of the same key, replacement case. -/
theorem pyGet_map_replace {α : Type} (k : String) (v : α) :
    ∀ (d : List (String × α)), d.any (fun p => decide (p.1 = k)) = true →
      pyGet (d.map (fun p => if p.1 = k then (k, v) else p)) k = some v := by
  intro d
  induction d with
  | nil => intro h; simp at h
  | cons p rest ih =>
    intro h
    by_cases hp : p.1 = k
    · simp [pyGet, hp]
    · have h2 : rest.any (fun p => decide (p.1 = k)) = true := by
        simp only [List.any_cons, Bool.or_eq_true, decide_eq_true_eq] at h
        rcases h with h | h
        · exact absurd h hp
        · exact h
      simp only [List.map_cons, if_neg hp]
      simp only [pyGet, if_neg hp]
      exact ih h2

/-- Dict lookup after dict assignment of a fresh key, append case. -/
theorem pyGet_append_new {α : Type} (k : String) (v : α) :
    ∀ (d : List (String × α)), d.any (fun p => decide (p.1 = k)) = false →
      pyGet (d ++ [(k, v)]) k = some v := by
  intro d
  induction d with
  | nil => intro _; simp [pyGet]
  | cons p rest ih =>
    intro h
    simp only [List.any_cons, Bool.or_eq_false_iff, decide_eq_false_iff_not] at h
    simp only [List.cons_append, pyGet, if_neg h.1]
    exact ih h.2

/-- Dict lookup of a key right after assigning it yields the new value. -/
theorem pyGet_dictInsert {α : Type} (d : List (String × α)) (k : String) (v : α) :
    pyGet (dictInsert d k v) k = some v := by
  unfold dictInsert
  by_cases hb : d.any (fun p => decide (p.1 = k)) = true
  · rw [if_pos hb]
    exact pyGet_map_replace k v d hb
  · rw [if_neg hb]
    exact pyGet_append_new k v d (Bool.eq_false_iff.mpr hb)

/-- Replacing the value bound to one key leaves lookups of other keys
unchanged. -/
theorem pyGet_map_ne {α : Type} (k kq : String) (v : α) (hne : kq ≠ k) :
    ∀ (d : List (String × α)),
      pyGet (d.map (fun p => if p.1 = k then (k, v) else p)) kq = pyGet d kq := by
  intro d
  induction d with
  | nil => rfl
  | cons p rest ih =>
    by_cases hp : p.1 = k
    · have hk : ¬ (k = kq) := fun h => hne h.symm
      have hpq : ¬ (p.1 = kq) := by rw [hp]; exact hk
      simp only [List.map_cons, if_pos hp, pyGet, if_neg hk, if_neg hpq]
      exact ih
    · by_cases hpq : p.1 = kq
      · simp only [List.map_cons, if_neg hp, pyGet, if_pos hpq]
      · simp only [List.map_cons, if_neg hp, pyGet, if_neg hpq]
        exact ih

/-- Appending a binding for one key leaves lookups of other keys
unchanged. -/
theorem pyGet_append_ne {α : Type} (k kq : String) (v : α) (hne : kq ≠ k) :
    ∀ (d : List (String × α)), pyGet (d ++ [(k, v)]) kq = pyGet d kq := by
  intro d
  induction d with
  | nil =>
    have hk : ¬ (k = kq) := fun h => hne h.symm
    simp [pyGet, hk]
  | cons p rest ih =>
    by_cases hpq : p.1 = kq
    · simp only [List.cons_append, pyGet, if_pos hpq]
    · simp only [List.cons_append, pyGet, if_neg hpq]
      exact ih

/-- Dict assignment of one key leaves lookups of other keys unchanged. -/
theorem pyGet_dictInsert_ne {α : Type} (d : List (String × α)) (k kq : String)
    (v : α) (hne : kq ≠ k) :
    pyGet (dictInsert d k v) kq = pyGet d kq := by
  unfold dictInsert
  by_cases hb : d.any (fun p => decide (p.1 = k)) = true
  · rw [if_pos hb]
    exact pyGet_map_ne k kq v hne d
  · rw [if_neg hb]
    exact pyGet_append_ne k kq v hne d

/-- The poll loop returns the index of the first signalling poll. -/
theorem findFirst_eq_some (s : PageState → Bool) (t : Nat → PageState) :
    ∀ (fuel k start : Nat), k < fuel →
      (∀ j, j < k → s (t (start + j)) = false) →
      s (t (start + k)) = true →
      findFirst s t start fuel = some (start + k) := by
  intro fuel
  induction fuel with
  | zero => intro k start hk _ _; exact absurd hk (Nat.not_lt_zero k)
  | succ n ih =>
    intro k start hk hfalse htrue
    match k with
    | 0 =>
      have h0 : s (t start) = true := by simpa using htrue
      simp [findFirst, h0]
    | m + 1 =>
      have h0 : s (t start) = false := by simpa using hfalse 0 (Nat.succ_pos m)
      have step : findFirst s t start (n + 1) = findFirst s t (start + 1) n := by
        simp [findFirst, h0]
      rw [step]
      have hfalse2 : ∀ j, j < m → s (t (start + 1 + j)) = false := by
        intro j hj
        have := hfalse (j + 1) (Nat.succ_lt_succ hj)
        have harr : start + (j + 1) = start + 1 + j := by omega
        rwa [harr] at this
      have htrue2 : s (t (start + 1 + m)) = true := by
        have harr : start + (m + 1) = start + 1 + m := by omega
        rwa [harr] at htrue
      have := ih m (start + 1) (Nat.lt_of_succ_lt_succ hk) hfalse2 htrue2
      rw [this]
      congr 1
      omega

/-- The poll loop times out when no poll signals within its budget. -/
theorem findFirst_eq_none (s : PageState → Bool) (t : Nat → PageState) :
    ∀ (fuel start : Nat),
      (∀ j, j < fuel → s (t (start + j)) = false) →
      findFirst s t start fuel = none := by
  intro fuel
  induction fuel with
  | zero => intro start _; rfl
  | succ n ih =>
    intro start hfalse
    have h0 : s (t start) = false := by simpa using hfalse 0 (Nat.succ_pos n)
    have step : findFirst s t start (n + 1) = findFirst s t (start + 1) n := by
      simp [findFirst, h0]
    rw [step]
    exact ih (start + 1) (fun j hj => by
      have := hfalse (j + 1) (Nat.succ_lt_succ hj)
      have harr : start + (j + 1) = start + 1 + j := by omega
      rwa [harr] at this)

/-- A page state that satisfies neither signal of the auto flow satisfies
neither signal of the bioclin_auth flow. -/
theorem bioclinSignal_false_of_autoSignal_false (st : PageState)
    (h : autoSignal st = false) : bioclinSignal st = false := by
  simp only [autoSignal, Bool.or_eq_false_iff] at h
  simp only [bioclinSignal, Bool.or_eq_false_iff]
  exact ⟨h.1.1, h.1.2⟩

/-- A well-formed stored record whose expiry has not passed is returned by
get_session unchanged. -/
theorem get_session_valid (now : Int) (d : SessionData) (e : Int)
    (he : d.expires_at = some e) (hle : now ≤ e) :
    get_session now (.present (.json d)) = some d := by
  have hnot : ¬ (now > e) := not_lt.mpr hle
  simp [get_session, get_session_body, jsonLoads, he, hnot]

/-- A stored record whose expiry is strictly past is reported absent by
get_session. -/
theorem get_session_expired (now : Int) (d : SessionData) (e : Int)
    (he : d.expires_at = some e) (hlt : e < now) :
    get_session now (.present (.json d)) = none := by
  have hgt : now > e := hlt
  simp [get_session, get_session_body, jsonLoads, he, hgt]

/-- Claim C1 counterexample: the record d1 expired at instant 0, yet at
instant 1 load_stored_session still returns it as a valid session rather
than reporting it absent (get_session, in contrast, reports None). -/
theorem c1_load_stored_session_returns_expired :
    d1.expires_at = some 0 ∧ ((0 : Int) < 1) ∧
    get_session 1 (.present (.json d1)) = none ∧
    load_stored_session (.present (.json d1)) = some d1 := by
  refine ⟨rfl, by decide, ?_, rfl⟩
  exact get_session_expired 1 d1 0 rfl (by decide)

/-- Claim C1 (amended): for every stored record whose expiry is strictly
past, get_session reports the session absent regardless of the record's
cookie contents, while load_stored_session performs no expiry check and
returns the record unchanged. -/
theorem c1_amended_expiry_handling (now : Int) (d : SessionData) (e : Int)
    (he : d.expires_at = some e) (hpast : e < now) :
    get_session now (.present (.json d)) = none ∧
    load_stored_session (.present (.json d)) = some d :=
  ⟨get_session_expired now d e he hpast, rfl⟩

/-- Claim C1 witness: the amended theorem applied to the concrete expired
record d1 at instant 1. -/
theorem c1_amended_expiry_handling_witness :
    get_session 1 (.present (.json d1)) = none ∧
    load_stored_session (.present (.json d1)) = some d1 :=
  c1_amended_expiry_handling 1 d1 0 rfl (by decide)

/-- Claim C4 (confirmed): saving any well-formed session record whose
expiry lies at or after the load instant, then loading it with
get_session in the same process, returns a record equal to the one
saved. -/
theorem c4_save_load_roundtrip (now : Int) (d : SessionData) (e : Int)
    (he : d.expires_at = some e) (hfut : now ≤ e) :
    get_session now (save_session d) = some d :=
  get_session_valid now d e he hfut

/-- Claim C4 witness: round trip of the concrete record d4 at instant 0. -/
theorem c4_save_load_roundtrip_witness :
    get_session 0 (save_session d4) = some d4 :=
  c4_save_load_roundtrip 0 d4 10 rfl (by decide)

/-- Claim C5 counterexample: for valid JSON missing the expires_at key,
load_stored_session returns the parsed object rather than reporting
absence, contradicting the claim that the load operation returns None on
such contents. -/
theorem c5_load_stored_session_returns_keyless_json :
    d5.expires_at = none ∧
    load_stored_session (.present (.json d5)) = some d5 :=
  ⟨rfl, rfl⟩

/-- Claim C5 (amended): neither load path propagates an exception on
malformed file contents; get_session returns None both for non-JSON
bytes and for parsed JSON missing the expires_at key, while
load_stored_session returns None for non-JSON bytes but returns the
parsed object unvalidated when the JSON parses. -/
theorem c5_amended_corruption_tolerance (now : Int) (g : Nat) (d : SessionData)
    (hnk : d.expires_at = none) :
    get_session now (.present (.garbage g)) = none ∧
    load_stored_session (.present (.garbage g)) = none ∧
    get_session now (.present (.json d)) = none ∧
    load_stored_session (.present (.json d)) = some d := by
  refine ⟨rfl, rfl, ?_, rfl⟩
  simp [get_session, get_session_body, jsonLoads, hnk]

/-- Claim C5 witness: the amended theorem at concrete garbage bytes and
the concrete keyless object d5. -/
theorem c5_amended_corruption_tolerance_witness :
    get_session 0 (.present (.garbage 0)) = none ∧
    load_stored_session (.present (.garbage 0)) = none ∧
    get_session 0 (.present (.json d5)) = none ∧
    load_stored_session (.present (.json d5)) = some d5 :=
  c5_amended_corruption_tolerance 0 0 d5 rfl

/-- Claim C10 (confirmed): get_session uses the strict comparison
`now > expires_at`, so a record whose expiry equals the current instant
is still returned as valid; the record is returned whenever
`now ≤ expires_at` and reported absent exactly when the expiry is
strictly past. -/
theorem c10_strict_expiry_comparison (now : Int) (d : SessionData) (e : Int)
    (he : d.expires_at = some e) :
    get_session e (.present (.json d)) = some d ∧
    (now ≤ e → get_session now (.present (.json d)) = some d) ∧
    (e < now → get_session now (.present (.json d)) = none) :=
  ⟨get_session_valid e d e he le_rfl,
   fun h => get_session_valid now d e he h,
   fun h => get_session_expired now d e he h⟩

/-- Claim C10 witness: the record d10 expiring at instant 5 is still valid
at instant 5 and absent at instant 6. -/
theorem c10_strict_expiry_comparison_witness :
    get_session 5 (.present (.json d10)) = some d10 ∧
    get_session 6 (.present (.json d10)) = none :=
  ⟨(c10_strict_expiry_comparison 5 d10 5 rfl).1,
   (c10_strict_expiry_comparison 6 d10 5 rfl).2.2 (by decide)⟩

/-- Claim C6 counterexample: the stored record d6 has a present csrf_token
whose value is the empty string, but neither bioclin_request nor
BioclinClient._get_headers attaches the X-CSRF-Token header, because the
Python truthiness test treats the empty string as falsy. -/
theorem c6_empty_csrf_token_not_attached :
    d6.csrf_token = some "" ∧
    pyGet (bioclin_request_headers (.present (.json d6)) []) "X-CSRF-Token" = none ∧
    pyGet (BioclinClient_get_headers (some "")) "X-CSRF-Token" = none := by
  refine ⟨rfl, ?_, ?_⟩ <;> rfl

/-- Claim C6 (amended): whenever the csrf_token present in the stored
record (or in the client's in-memory state) is nonempty, the outbound
request headers carry X-CSRF-Token equal to that token, in both
bioclin_request and BioclinClient._get_headers. -/
theorem c6_amended_csrf_attachment (fs : FileState) (d : SessionData)
    (t : String) (headers0 : List (String × String))
    (hload : load_stored_session fs = some d)
    (hcsrf : d.csrf_token = some t) (hne : ¬ t = "") :
    pyGet (bioclin_request_headers fs headers0) "X-CSRF-Token" = some t ∧
    pyGet (BioclinClient_get_headers (some t)) "X-CSRF-Token" = some t := by
  constructor
  · simp only [bioclin_request_headers, hload, hcsrf]
    rw [if_neg hne]
    exact pyGet_dictInsert headers0 "X-CSRF-Token" t
  · simp only [BioclinClient_get_headers]
    rw [if_neg hne]
    exact pyGet_dictInsert _ "X-CSRF-Token" t

/-- Claim C6 witness: the amended theorem at the concrete stored record
d6W whose csrf token is "tok". -/
theorem c6_amended_csrf_attachment_witness :
    pyGet (bioclin_request_headers (.present (.json d6W)) []) "X-CSRF-Token" = some "tok" ∧
    pyGet (BioclinClient_get_headers (some "tok")) "X-CSRF-Token" = some "tok" :=
  c6_amended_csrf_attachment (.present (.json d6W)) d6W "tok" [] rfl rfl (by decide)

/-- Claim C9 (confirmed): bioclin_logout always leaves the session file
deleted, reports session_file_deleted exactly as the prior existence of
the file, and converts a failed remote logout into an error-status
result instead of propagating the exception. -/
theorem c9_logout_deletes_file (remote : Except ReqError (List (String × PyVal)))
    (fileExists : Bool) :
    (bioclin_logout remote fileExists).2 = false ∧
    pyGet (bioclin_logout remote fileExists).1 "session_file_deleted"
      = some (.bool fileExists) ∧
    (∀ e, remote = .error e →
      pyGet (bioclin_logout remote fileExists).1 "status" = some (.str "error")) := by
  refine ⟨?_, ?_, ?_⟩
  · cases remote <;> cases fileExists <;> simp [bioclin_logout]
  · cases remote <;> cases fileExists <;>
      simp only [bioclin_logout, if_pos, if_neg, Bool.false_eq_true,
        not_false_eq_true, if_true, if_false] <;>
      exact pyGet_dictInsert _ _ _
  · intro e he
    subst he
    cases fileExists <;>
      simp only [bioclin_logout, if_true, Bool.false_eq_true, if_false] <;>
      rw [pyGet_dictInsert_ne _ _ _ _ (by decide)] <;>
      simp [pyGet]

/-- Claim C9 witness: a failed remote logout (transport error) with the
session file present still deletes the file, reports
session_file_deleted, and returns an error-status result. -/
theorem c9_logout_deletes_file_witness :
    (bioclin_logout (.error (.transport 0)) true).2 = false ∧
    pyGet (bioclin_logout (.error (.transport 0)) true).1 "session_file_deleted"
      = some (.bool true) ∧
    pyGet (bioclin_logout (.error (.transport 0)) true).1 "status"
      = some (.str "error") := by
  have h := c9_logout_deletes_file (.error (.transport 0)) true
  exact ⟨h.1, h.2.1, h.2.2 (.transport 0) rfl⟩

/-- Claim C2 (code bug, evaluated at the failing input): the login POST
succeeds, the identity-check GET returns a non-2xx 401, yet login_cli
still persists a session record and reports success, because its
verification response's status is never checked. -/
theorem c2_login_cli_persists_after_failed_verification :
    is2xx 401 = false ∧
    (login_cli 0 c2LoginResp c2UserResp).success = true ∧
    (login_cli 0 c2LoginResp c2UserResp).saved.isSome = true := by
  decide

/-- Claim C3 counterexample: a login response carrying an "unrelated"
cookie leads login_cli to persist a record whose cookie map still
contains that cookie, so not every login flow filters to the allowed
set. -/
theorem c3_login_cli_persists_unrelated_cookie :
    ((login_cli 0 c3LoginResp c3UserResp).saved.map
      (fun d => pyGet d.cookies "unrelated")) = some (some "c") := by
  decide

/-- Every record the shared browser capture/verify/save block persists has
its cookie keys drawn from the allowed set. -/
theorem browserSaveRecord_cookies_allowed (now : Int)
    (cc : List (String × String)) (ur : HttpResult) (r : SessionData)
    (hr : browserSaveRecord now cc ur = some r) :
    ∀ k v, (k, v) ∈ r.cookies → k ∈ requiredCookies := by
  unfold browserSaveRecord at hr
  split at hr
  · exact absurd hr (by simp)
  · split at hr
    · simp at hr
    · split at hr
      · split at hr
        · have hrec := Option.some.inj hr
          subst hrec
          intro k v hm
          have hm2 : (k, v) ∈ (dictOfList cc).filter
              (fun p => decide (p.1 ∈ requiredCookies)) := hm
          rw [List.mem_filter] at hm2
          simpa using hm2.2
        · simp at hr
      · simp at hr

/-- Claim C3 (amended): every record persisted by the browser login flow
has a cookie map whose keys are drawn only from the allowed set
(login_cli, in contrast, persists the login response's cookies
unfiltered). -/
theorem c3_amended_cookie_filtering (now : Int) (trace : Nat → PageState)
    (cc : List (String × String)) (ur : HttpResult) (r : SessionData)
    (k v : String)
    (hsaved : (login_browser_auto now trace cc ur).saved = some r)
    (hmem : (k, v) ∈ r.cookies) :
    k ∈ requiredCookies := by
  have hr : browserSaveRecord now cc ur = some r := by
    unfold login_browser_auto at hsaved
    cases hdet : detectIndex bioclinSignal trace with
    | none =>
      rw [hdet] at hsaved
      simp at hsaved
    | some i =>
      rw [hdet] at hsaved
      cases hbs : browserSaveRecord now cc ur with
      | none =>
        rw [hbs] at hsaved
        simp at hsaved
      | some r2 =>
        rw [hbs] at hsaved
        simp at hsaved
        rw [hsaved]
  exact browserSaveRecord_cookies_allowed now cc ur r hr k v hmem

/-- Claim C3 witness: the spec's example captured set, including an
unrelated cookie, persists through the browser flow as exactly the three
allowed cookies, and the amended theorem applies to one of them. -/
theorem c3_amended_cookie_filtering_witness :
    (login_browser_auto 0 traceD ccExample urOk).saved = some recExample ∧
    ("access_token", "a") ∈ recExample.cookies ∧
    "access_token" ∈ requiredCookies := by
  refine ⟨by decide, by decide, ?_⟩
  exact c3_amended_cookie_filtering 0 traceD ccExample urOk recExample
    "access_token" "a" (by decide) (by decide)

/-- Claim C7 counterexample: on a page whose cookie string contains
"session", the auto_browser_auth poll loop declares login detected at
poll 0 even though neither of the claim's two signals — URL away from
/login, or an access-token cookie — holds there. -/
theorem c7_auto_flow_extra_session_signal :
    detectIndex autoSignal trace7 = some 0 ∧
    bioclinSignal (trace7 0) = false := by
  decide

/-- Claim C7 (amended): each poll loop detects login at the first poll
satisfying its own signal; with no auto-flow signal before poll 3 and
the URL leaving /login at poll 3, both the bioclin_auth loop and the
auto_browser_auth loop detect login at poll 3, independently of when a
cookie appears. -/
theorem c7_amended_login_detection (trace : Nat → PageState)
    (hbefore : ∀ i, i < 3 → autoSignal (trace i) = false)
    (hurl : strContains (trace 3).url "/login" = false) :
    detectIndex bioclinSignal trace = some 3 ∧
    detectIndex autoSignal trace = some 3 := by
  have htrueB : bioclinSignal (trace 3) = true := by
    simp [bioclinSignal, hurl]
  have htrueA : autoSignal (trace 3) = true := by
    simp [autoSignal, hurl]
  constructor
  · have h := findFirst_eq_some bioclinSignal trace 150 3 0 (by omega)
      (fun j hj => by
        have ha : autoSignal (trace j) = false := hbefore j hj
        have hb := bioclinSignal_false_of_autoSignal_false _ ha
        simpa using hb)
      (by simpa using htrueB)
    simpa [detectIndex] using h
  · have h := findFirst_eq_some autoSignal trace 150 3 0 (by omega)
      (fun j hj => by simpa using hbefore j hj)
      (by simpa using htrueA)
    simpa [detectIndex] using h

/-- Claim C7 witness: on the concrete trace whose URL leaves /login at
poll 3 with no recognizable cookie until poll 5, both loops detect login
at poll 3. -/
theorem c7_amended_login_detection_witness :
    (∀ i, i < 3 → autoSignal (traceW i) = false) ∧
    detectIndex bioclinSignal traceW = some 3 ∧
    detectIndex autoSignal traceW = some 3 := by
  refine ⟨by decide, ?_⟩
  exact c7_amended_login_detection traceW (by decide) (by decide)

/-- Claim C8 counterexample: on a never-signalling trace the bioclin_auth
flow does return a failure with the browser closed, but reports no
last-observed URL or cookie state at all, contrary to the claim. -/
theorem c8_bioclin_auth_timeout_no_diagnostics :
    (login_browser_auto 0 traceC [] (.transportError 0)).success = false ∧
    (login_browser_auto 0 traceC [] (.transportError 0)).browserClosed = true ∧
    (login_browser_auto 0 traceC [] (.transportError 0)).finalUrlReported = none ∧
    (login_browser_auto 0 traceC [] (.transportError 0)).finalCookiesReported = none := by
  decide

/-- Claim C8 (amended): when neither signal fires within the 150-poll
ceiling, both flows return a failure value (not an exception) with the
browser released; auto_browser_auth reports the last-observed URL and
cookie string for diagnostics, while bioclin_auth reports only a generic
timeout message with no URL or cookie state. -/
theorem c8_amended_timeout_path (now : Int) (trace : Nat → PageState)
    (cc : List (String × String)) (ur : HttpResult)
    (h : ∀ i, i < 150 → autoSignal (trace i) = false) :
    login_browser_auto now trace cc ur =
      { success := false, saved := none, browserClosed := true
        finalUrlReported := none, finalCookiesReported := none } ∧
    auto_browser_login now trace cc ur =
      { success := false, saved := none, browserClosed := true
        finalUrlReported := some (trace 150).url
        finalCookiesReported := some (trace 150).cookieStr } := by
  have hA : detectIndex autoSignal trace = none := by
    have hx := findFirst_eq_none autoSignal trace 150 0
      (fun j hj => by simpa using h j hj)
    simpa [detectIndex] using hx
  have hB : detectIndex bioclinSignal trace = none := by
    have hx := findFirst_eq_none bioclinSignal trace 150 0
      (fun j hj => by
        have ha : autoSignal (trace j) = false := h j hj
        have hb := bioclinSignal_false_of_autoSignal_false _ ha
        simpa using hb)
    simpa [detectIndex] using hx
  exact ⟨by simp [login_browser_auto, hB], by simp [auto_browser_login, hA]⟩

set_option maxRecDepth 20000 in
/-- Claim C8 witness: the amended theorem at the concrete never-signalling
trace that stays on the login page with no cookies. -/
theorem c8_amended_timeout_path_witness :
    (∀ i, i < 150 → autoSignal (traceC i) = false) ∧
    login_browser_auto 0 traceC [] (.transportError 0) =
      { success := false, saved := none, browserClosed := true
        finalUrlReported := none, finalCookiesReported := none } ∧
    auto_browser_login 0 traceC [] (.transportError 0) =
      { success := false, saved := none, browserClosed := true
        finalUrlReported := some (traceC 150).url
        finalCookiesReported := some (traceC 150).cookieStr } := by
  refine ⟨by decide, ?_⟩
  exact c8_amended_timeout_path 0 traceC [] (.transportError 0) (by decide)
